import Mathlib

/-!
Shallow embedding of the processed-video index and claim/commit protocol of
the youtube_summarizer_agent_core repository.

Source files embedded:
  * src/tools/notes.py  — load_processed_index / save_processed_index,
    is_video_processed, mark_video_processed, update_channel_checked, save_note
  * src/local_fetcher.py — is_video_processed_s3, mark_video_processing_s3

Modelling conventions:
  * JSON documents are modelled structurally.  The persisted index document is
    a record with two optional top-level keys ("videos", "channels"); a key
    that may be missing from the JSON object is an `Option`, and each mapping
    is an association list with string keys (Python dicts preserve insertion
    order and replace in place on assignment, which `insertA` mirrors).
  * Timestamps (`datetime.now().isoformat()` etc.) are opaque strings passed
    in as parameters (`now`).
  * The S3 backing store is modelled by the outcome each `get_object` call
    would produce during one operation (the store is held fixed for the
    duration of a call):  `noSuchKey` is the boto NoSuchKey ClientError,
    `clientError` any other botocore ClientError (e.g. AccessDenied),
    `otherError` any non-ClientError exception (e.g. a socket timeout), and
    `got p` a successful fetch whose body `json.loads` to `p` (`none` when
    the body is not valid JSON, i.e. json.loads raises).
  * A fallible Python function is a Lean function returning `Except`/`Option`;
    raising an exception that a caller converts is modelled by the
    corresponding constructor.
-/

/-- One entry of the `videos` mapping.  Field set as written by
`mark_video_processing_s3` (claim) and `mark_video_processed` (commit);
fields a given writer does not set are `none` (absent JSON keys / null). -/
structure ItemRecord where
  status : String
  processing_started : Option String
  processed_at : Option String
  title : String
  channel_id : String
  channel_name : String
  note_path : Option String
deriving DecidableEq, Repr

/-- One entry of the `channels` mapping, as written by `update_channel_checked`. -/
structure FeedRecord where
  name : String
  url : String
  last_checked : String
  last_video_id : String
deriving DecidableEq, Repr

/-- Association-list lookup: Python `d.get(k)` / `k in d`. -/
def lookupA {α : Type} (k : String) : List (String × α) → Option α
  | [] => none
  | (k', v) :: rest => if k' = k then some v else lookupA k rest

/-- Association-list insert/replace: Python `d[k] = v` (replaces in place,
appends at the end when the key is new, as insertion-ordered dicts do). -/
def insertA {α : Type} (k : String) (v : α) : List (String × α) → List (String × α)
  | [] => [(k, v)]
  | (k', v') :: rest => if k' = k then (k, v) :: rest else (k', v') :: insertA k v rest

/-- The persisted index document.  `none` for a top-level key models a JSON
document that lacks that key (the code guards with `"videos" not in index`
and `index.get("videos", \x7b\x7d)`). -/
structure IndexDoc where
  videos : Option (List (String × ItemRecord))
  channels : Option (List (String × FeedRecord))
deriving DecidableEq, Repr

/-- The fresh empty index `\x7b"videos": \x7b\x7d, "channels": \x7b\x7d\x7d`. -/
def emptyIndex : IndexDoc := { videos := some [], channels := some [] }

/-- Outcome of one `s3.get_object` call (see module conventions above). -/
inductive FetchOutcome
  | noSuchKey
  | clientError
  | otherError
  | got (parse : Option IndexDoc)
deriving DecidableEq, Repr

/-- The S3 backing-store state seen by one operation: the configured bucket
(`NOTES_S3_BUCKET`, `none` when unset), the fetch outcome at the canonical
key `metadata/processed_videos.json`, the fetch outcome at the legacy key
`notes/processed_videos.json`, and whether a `put_object` call succeeds. -/
structure S3Store where
  bucket : Option String
  canonical : FetchOutcome
  legacy : FetchOutcome
  putOk : Bool
deriving DecidableEq, Repr

/-- The local-filesystem store: `none` = the index file does not exist;
`some none` = it exists but `json.load` raises; `some (some d)` = it parses
to `d`. -/
structure LocalStore where
  file : Option (Option IndexDoc)
deriving DecidableEq, Repr

/-- The backing store together with the `NOTES_BACKEND` selection made by
`load_processed_index` / `save_processed_index`. -/
inductive StoreEnv
  | localFS (st : LocalStore)
  | s3B (st : S3Store)
deriving DecidableEq, Repr

/-- Result of an inner loader (`_load_index_from_s3` / `_load_index_from_local`)
as seen by `load_processed_index`: a parsed document, a `FileNotFoundError`,
or any other exception propagating out. -/
inductive LoadResult
  | ok (d : IndexDoc)
  | fileNotFound
  | err
deriving DecidableEq, Repr

/-- `_load_index_from_s3` (src/tools/notes.py lines 185-208): get the
canonical key; on NoSuchKey fall back to the legacy key, converting a
ClientError there to FileNotFoundError; re-raise any other canonical-key
ClientError; let every non-ClientError exception (ValueError for a missing
bucket, json.JSONDecodeError, socket errors) propagate. -/
def load_index_from_s3 (st : S3Store) : LoadResult :=
  match st.bucket with
  | none => .err
  | some _ =>
    match st.canonical with
    | .got (some d) => .ok d
    | .got none => .err
    | .clientError => .err
    | .otherError => .err
    | .noSuchKey =>
      match st.legacy with
      | .got (some d) => .ok d
      | .got none => .err
      | .clientError => .fileNotFound
      | .otherError => .err
      | .noSuchKey => .fileNotFound

/-- `_load_index_from_local` (src/tools/notes.py lines 174-182): missing file
raises FileNotFoundError; a file that exists but fails `json.load` raises. -/
def load_index_from_local (st : LocalStore) : LoadResult :=
  match st.file with
  | none => .fileNotFound
  | some none => .err
  | some (some d) => .ok d

/-- The inner loader selected by `NOTES_BACKEND`. -/
def backendLoad : StoreEnv → LoadResult
  | .localFS st => load_index_from_local st
  | .s3B st => load_index_from_s3 st

/-- `load_processed_index` (src/tools/notes.py lines 145-171):
FileNotFoundError means first run and yields the empty index; any other
exception becomes ProcessedIndexLoadError, modelled as `.error ()`. -/
def load_processed_index (env : StoreEnv) : Except Unit IndexDoc :=
  match backendLoad env with
  | .ok d => .ok d
  | .fileNotFound => .ok emptyIndex
  | .err => .error ()

/-- The canonical index key used by `_save_index_to_s3` and `_load_index_from_s3`. -/
def canonicalS3Key : String := "metadata/processed_videos.json"

/-- The legacy fallback key read (never written) for backwards compatibility. -/
def legacyS3Key : String := "notes/processed_videos.json"

/-- `_save_index_to_s3` (src/tools/notes.py lines 235-251): raises ValueError
when no bucket is configured (no write), otherwise `put_object`s the
serialized index at the canonical key.  The result is the (key, document)
pair passed to `put_object`, `none` when no write is attempted. -/
def save_index_to_s3 (st : S3Store) (d : IndexDoc) : Option (String × IndexDoc) :=
  match st.bucket with
  | none => none
  | some _ => some (canonicalS3Key, d)

/-- `_save_index_to_local` (src/tools/notes.py lines 225-232): writes the
index at `NOTES_LOCAL_DIR/processed_videos.json` unconditionally. -/
def save_index_to_local (localDir : String) (d : IndexDoc) : Option (String × IndexDoc) :=
  some (localDir ++ "/processed_videos.json", d)

/-- `is_video_processed` (src/tools/notes.py lines 254-273): a load failure
returns true (fail-safe); a successful load returns membership of the id in
the `videos` mapping (missing key defaults to the empty dict). -/
def is_video_processed (env : StoreEnv) (video_id : String) : Bool :=
  match load_processed_index env with
  | .error _ => true
  | .ok index => (lookupA video_id (index.videos.getD [])).isSome

/-- The record written by `mark_video_processed` for `video_id`: status
"processed", `processing_started` preserved from the existing entry (null
when there was none or it had none), `processed_at` and `note_path` set. -/
def commitRecord (existing : Option ItemRecord)
    (title channel_id channel_name note_path now : String) : ItemRecord :=
  { status := "processed"
    processing_started := existing.bind ItemRecord.processing_started
    processed_at := some now
    title := title
    channel_id := channel_id
    channel_name := channel_name
    note_path := some note_path }

/-- Body of `mark_video_processed` (src/tools/notes.py lines 276-323) after
the load: on ProcessedIndexLoadError skip the write and return; otherwise
ensure the "videos" key, preserve the existing entry's `processing_started`,
overwrite `videos[video_id]`, and save.  The result is the document passed
to `save_processed_index` (`none` = no save call). -/
def mark_video_processed_core (loaded : Except Unit IndexDoc)
    (video_id title channel_id channel_name note_path now : String) : Option IndexDoc :=
  match loaded with
  | .error _ => none
  | .ok index =>
    let vids := index.videos.getD []
    let existing := lookupA video_id vids
    some { index with
           videos := some (insertA video_id
             (commitRecord existing title channel_id channel_name note_path now) vids) }

/-- `mark_video_processed` against a backing store. -/
def mark_video_processed (env : StoreEnv)
    (video_id title channel_id channel_name note_path now : String) : Option IndexDoc :=
  mark_video_processed_core (load_processed_index env)
    video_id title channel_id channel_name note_path now

/-- Body of `update_channel_checked` (src/tools/notes.py lines 326-362) after
the load: on ProcessedIndexLoadError skip the write; otherwise ensure the
"channels" key, overwrite `channels[channel_id]`, and save. -/
def update_channel_checked_core (loaded : Except Unit IndexDoc)
    (channel_id channel_name channel_url last_video_id now : String) : Option IndexDoc :=
  match loaded with
  | .error _ => none
  | .ok index =>
    let chans := index.channels.getD []
    some { index with
           channels := some (insertA channel_id
             { name := channel_name
               url := channel_url
               last_checked := now
               last_video_id := last_video_id } chans) }

/-- `update_channel_checked` against a backing store. -/
def update_channel_checked (env : StoreEnv)
    (channel_id channel_name channel_url last_video_id now : String) : Option IndexDoc :=
  update_channel_checked_core (load_processed_index env)
    channel_id channel_name channel_url last_video_id now

/-- The inline index load of `mark_video_processing_s3`
(src/local_fetcher.py lines 113-124): canonical key, on NoSuchKey the legacy
key, on NoSuchKey at both a fresh empty index; any other exception reaches
the function's outer `except` (modelled `.error ()`). -/
def loadForClaim (st : S3Store) : Except Unit IndexDoc :=
  match st.canonical with
  | .got (some d) => .ok d
  | .got none => .error ()
  | .clientError => .error ()
  | .otherError => .error ()
  | .noSuchKey =>
    match st.legacy with
    | .got (some d) => .ok d
    | .got none => .error ()
    | .clientError => .error ()
    | .otherError => .error ()
    | .noSuchKey => .ok emptyIndex

/-- The record written by `mark_video_processing_s3` for a fresh claim. -/
def claimRecord (title channel_id channel_name now : String) : ItemRecord :=
  { status := "processing"
    processing_started := some now
    processed_at := none
    title := title
    channel_id := channel_id
    channel_name := channel_name
    note_path := none }

/-- `mark_video_processing_s3` (src/local_fetcher.py lines 85-152).  Returns
(return value, document passed to `put_object` at the canonical key).  With
no bucket configured: (false, none).  A load exception, the id already
present in `videos` (checked via `.get("videos", \x7b\x7d)`), the KeyError
raised by `processed["videos"][video_id] = ...` on a document lacking the
"videos" key, and a failed put all return false through the outer `except`;
only a successful put returns true. -/
def mark_video_processing_s3 (st : S3Store)
    (video_id title channel_id channel_name now : String) : Bool × Option IndexDoc :=
  match st.bucket with
  | none => (false, none)
  | some _ =>
    match loadForClaim st with
    | .error _ => (false, none)
    | .ok processed =>
      if (lookupA video_id (processed.videos.getD [])).isSome then (false, none)
      else
        match processed.videos with
        | none => (false, none)
        | some vids =>
          let newDoc := { processed with
            videos := some (insertA video_id
              (claimRecord title channel_id channel_name now) vids) }
          (st.putOk, some newDoc)

/-- One attempt of the retry loop of `is_video_processed_s3`
(src/local_fetcher.py lines 45-82), with `fuel` remaining iterations of
`for attempt in range(max_retries + 1)`.  A parse failure or any exception
other than NoSuchKey at the canonical key hits the generic `except` and is
retried, returning true once attempts are exhausted; NoSuchKey at the
canonical key goes to the legacy key, where any failure at all (NoSuchKey,
parse failure, or any other exception) returns false. -/
def isVidLoop (st : S3Store) (video_id : String) : Nat → Bool
  | 0 => true
  | n + 1 =>
    match st.canonical with
    | .got (some d) => (lookupA video_id (d.videos.getD [])).isSome
    | .got none => if n = 0 then true else isVidLoop st video_id n
    | .clientError => if n = 0 then true else isVidLoop st video_id n
    | .otherError => if n = 0 then true else isVidLoop st video_id n
    | .noSuchKey =>
      match st.legacy with
      | .got (some d) => (lookupA video_id (d.videos.getD [])).isSome
      | .got none => false
      | .clientError => false
      | .otherError => false
      | .noSuchKey => false

/-- `is_video_processed_s3` (src/local_fetcher.py lines 21-82): true when no
bucket is configured (safe default), else the retry loop with
`max_retries + 1` attempts. -/
def is_video_processed_s3 (st : S3Store) (video_id : String) (max_retries : Nat) : Bool :=
  match st.bucket with
  | none => true
  | some _ => isVidLoop st video_id (max_retries + 1)

/-- `sanitize_filename` (src/tools/notes.py lines 26-30): strip the
characters forbidden in filenames, replace spaces with underscores, truncate
to 100 characters. -/
def sanitize_filename (title : String) : String :=
  let removed := title.toList.filter (fun c => !("<>:\"/\\|?*".toList.contains c))
  let underscored := removed.map (fun c => if c = ' ' then '_' else c)
  String.mk (underscored.take 100)

/-- The note path produced by `save_to_local` / `save_to_s3`
(src/tools/notes.py lines 33-68): a timestamped markdown filename under the
notes directory or under `notes/` in the bucket.  The file-body write itself
is opaque; only the returned path matters to the index. -/
def notePath (dirPart ts title : String) : String :=
  dirPart ++ "/" ++ ts ++ "_" ++ sanitize_filename title ++ ".md"

/-- The JSON payload `save_note` returns (json.dumps of a dict with these
keys; serialization itself is abstracted to the payload). -/
structure SaveNoteResult where
  success : Bool
  error : Option String
  path : Option String
deriving DecidableEq, Repr

/-- An externally visible write performed by `save_note`: the note file
itself, or the processed index. -/
inductive NoteEffect
  | noteWrite (path : String)
  | indexWrite (d : IndexDoc)
deriving DecidableEq, Repr

/-- The backend branch of `save_note` (src/tools/notes.py lines 94-107):
s3 without a configured bucket returns the config error; otherwise the note
is written and its path returned.  `localDir`/`bucket` come from the
environment, `ts` is the timestamp used in the filename. -/
def save_note_backend (env : StoreEnv) (localDir ts title : String) : Except String String :=
  match env with
  | .s3B st =>
    match st.bucket with
    | none => .error "NOTES_S3_BUCKET not configured"
    | some bucket => .ok ("s3://" ++ bucket ++ "/" ++ notePath "notes" ts title)
  | .localFS _ => .ok (notePath localDir ts title)

/-- `save_note` (src/tools/notes.py lines 71-128).  Empty content (None or
the empty string, Python `not content`) fails before touching any backend.
Otherwise the note is written; when a `video_id` is given the index update
runs (and silently does nothing on a load failure).  Returns the JSON
payload and the list of writes performed. -/
def save_note (env : StoreEnv) (localDir ts now title : String)
    (content : Option String)
    (video_id channel_id channel_name : Option String) :
    SaveNoteResult × List NoteEffect :=
  if (match content with | none => true | some s => s.isEmpty) then
    ({ success := false, error := some "Note content cannot be empty", path := none }, [])
  else
    match save_note_backend env localDir ts title with
    | .error e => ({ success := false, error := some e, path := none }, [])
    | .ok path =>
      match video_id with
      | none =>
        ({ success := true, error := none, path := some path }, [.noteWrite path])
      | some vid =>
        match mark_video_processed env vid title (channel_id.getD "")
            (channel_name.getD "") path now with
        | none =>
          ({ success := true, error := none, path := some path }, [.noteWrite path])
        | some d =>
          ({ success := true, error := none, path := some path },
           [.noteWrite path, .indexWrite d])

/-! Association-list lemmas used by the frame and preservation theorems. -/

/-- Looking up the freshly inserted key yields the inserted value. -/
theorem lookupA_insertA_self {α : Type} (k : String) (v : α) (m : List (String × α)) :
    lookupA k (insertA k v m) = some v := by
  induction m with
  | nil => simp [insertA, lookupA]
  | cons hd tl ih =>
    obtain ⟨k', v'⟩ := hd
    by_cases h : k' = k
    · simp [insertA, lookupA, h]
    · simp [insertA, lookupA, h, ih]

/-- Insertion at one key does not change lookups at any other key. -/
theorem lookupA_insertA_ne {α : Type} (k k' : String) (v : α) (m : List (String × α))
    (h : k' ≠ k) : lookupA k' (insertA k v m) = lookupA k' m := by
  induction m with
  | nil => simp [insertA, lookupA, Ne.symm h]
  | cons hd tl ih =>
    obtain ⟨k₀, v₀⟩ := hd
    by_cases h₀ : k₀ = k
    · subst h₀
      simp [insertA, lookupA, Ne.symm h]
    · simp only [insertA, if_neg h₀, lookupA]
      by_cases h₁ : k₀ = k'
      · simp [h₁]
      · simp [h₁, ih]

/-- A backing-store state in which the index document is absent at every
known location: for the local backend the index file does not exist; for S3
a bucket is configured and both the canonical and the legacy key are absent. -/
def indexAbsentEverywhere : StoreEnv → Prop
  | .localFS st => st.file = none
  | .s3B st => st.bucket ≠ none ∧ st.canonical = .noSuchKey ∧ st.legacy = .noSuchKey

/-- C4: when the index document is absent at every known location (canonical
and legacy), load_processed_index returns the fresh empty index
(videos and channels both empty) and raises no error. -/
theorem c4_fresh_start (env : StoreEnv) (h : indexAbsentEverywhere env) :
    load_processed_index env = .ok emptyIndex := by
  cases env with
  | localFS st =>
    simp only [indexAbsentEverywhere] at h
    simp [load_processed_index, backendLoad, load_index_from_local, h]
  | s3B st =>
    obtain ⟨hb, hc, hl⟩ := h
    obtain ⟨bucket, canonical, legacy, putOk⟩ := st
    cases bucket with
    | none => exact absurd rfl hb
    | some b => simp_all [load_processed_index, backendLoad, load_index_from_s3]

/-- Witness for c4_fresh_start at a concrete S3 store with both keys absent. -/
theorem c4_fresh_start_witness :
    indexAbsentEverywhere (.s3B ⟨some "b", .noSuchKey, .noSuchKey, true⟩) ∧
    load_processed_index (.s3B ⟨some "b", .noSuchKey, .noSuchKey, true⟩) = .ok emptyIndex :=
  ⟨⟨by decide, rfl, rfl⟩, c4_fresh_start _ ⟨by decide, rfl, rfl⟩⟩

/-- C2 counterexample: with a bucket configured, the canonical key absent and
the legacy key failing with a ClientError other than NoSuchKey (e.g. an
auth/permission error — a fetch outcome that is not document absence),
load_processed_index returns the fresh empty index instead of raising
ProcessedIndexLoadError: the broad `except ClientError` around the legacy
fallback read converts the error to FileNotFoundError. -/
theorem c2_counterexample :
    load_processed_index (.s3B ⟨some "bucket", .noSuchKey, .clientError, true⟩) =
      .ok emptyIndex ∧
    load_processed_index (.s3B ⟨some "bucket", .noSuchKey, .clientError, true⟩) ≠
      .error () := by
  refine ⟨rfl, fun h => ?_⟩
  have h' : (Except.ok emptyIndex : Except Unit IndexDoc) = .error () := h
  exact Except.noConfusion h'

/-- C2 (amended): load_processed_index raises ProcessedIndexLoadError exactly
when the backend fetch fails for a reason other than absence — a local index
file that exists but does not parse; for S3 a missing bucket configuration, a
canonical-key deserialization failure, ClientError or other exception, or a
canonical-key absence followed by a legacy-key deserialization failure or
non-ClientError exception.  The one non-absence failure that does NOT raise
is a legacy-key ClientError after canonical absence, which is treated as
absence and yields the empty index. -/
theorem c2_load_error_exactly (env : StoreEnv) :
    load_processed_index env = .error () ↔
      (match env with
       | .localFS st => st.file = some none
       | .s3B st => st.bucket = none ∨ st.canonical = .clientError ∨
           st.canonical = .otherError ∨ st.canonical = .got none ∨
           (st.canonical = .noSuchKey ∧
             (st.legacy = .otherError ∨ st.legacy = .got none))) := by
  cases env with
  | localFS st =>
    obtain ⟨f⟩ := st
    rcases f with _ | (_ | d) <;>
      simp [load_processed_index, backendLoad, load_index_from_local]
  | s3B st =>
    obtain ⟨bucket, canonical, legacy, putOk⟩ := st
    cases bucket with
    | none => simp [load_processed_index, backendLoad, load_index_from_s3]
    | some b =>
      cases canonical with
      | noSuchKey =>
        rcases legacy with _ | _ | _ | (_ | d) <;>
          simp [load_processed_index, backendLoad, load_index_from_s3]
      | clientError => simp [load_processed_index, backendLoad, load_index_from_s3]
      | otherError => simp [load_processed_index, backendLoad, load_index_from_s3]
      | got p =>
        rcases p with _ | d <;>
          simp [load_processed_index, backendLoad, load_index_from_s3]

/-- C3: evaluation of the two check implementations on the failing store.
With a bucket configured, the canonical key absent and the legacy fallback
read failing with a non-absence error (a ClientError such as AccessDenied,
or a body that fails json.loads), `is_video_processed_s3` returns FALSE —
its inner `except Exception` handler returns False — although its own
docstring promises "False only if confirmed not processed" and the claim
requires the fail-safe True.  On the same kind of failure at the canonical
key (where the retry loop applies), and in `is_video_processed`, the
fail-safe True does hold. -/
theorem c3_fallback_read_failure_not_failsafe :
    is_video_processed_s3 ⟨some "bucket", .noSuchKey, .clientError, true⟩ "xyz" 2 = false ∧
    is_video_processed_s3 ⟨some "bucket", .noSuchKey, .got none, true⟩ "xyz" 2 = false ∧
    is_video_processed_s3 ⟨some "bucket", .clientError, .noSuchKey, true⟩ "xyz" 2 = true ∧
    is_video_processed (.s3B ⟨some "bucket", .clientError, .noSuchKey, true⟩) "xyz" = true :=
  ⟨rfl, rfl, rfl, rfl⟩

/-- C10: save_note called with empty content (None or the empty string)
returns the failure payload with error "Note content cannot be empty" and
performs no writes at all — no note write and no processed-index update. -/
theorem c10_empty_content_no_write (env : StoreEnv) (localDir ts now title : String)
    (content : Option String) (video_id channel_id channel_name : Option String)
    (h : content = none ∨ content = some "") :
    save_note env localDir ts now title content video_id channel_id channel_name =
      ({ success := false, error := some "Note content cannot be empty", path := none },
       []) := by
  rcases h with h | h <;> subst h <;> rfl

/-- Witness for c10_empty_content_no_write with content = None. -/
theorem c10_empty_content_no_write_witness :
    save_note (.localFS ⟨none⟩) "./notes" "ts" "now" "Title" none
        (some "vid") (some "chan") (some "name") =
      ({ success := false, error := some "Note content cannot be empty", path := none },
       []) :=
  c10_empty_content_no_write (.localFS ⟨none⟩) "./notes" "ts" "now" "Title" none
    (some "vid") (some "chan") (some "name") (Or.inl rfl)

/-- C8: against a store where the document exists only at the legacy key
(canonical absent), load_processed_index returns the legacy document's
contents with no error; and every write `_save_index_to_s3` performs goes to
the canonical key — which differs from the legacy key — with the exact
document it was given. -/
theorem c8_fallback_read_canonical_write (st st' : S3Store) (b : String)
    (d d' x : IndexDoc) (k : String)
    (hb : st.bucket = some b) (hc : st.canonical = .noSuchKey)
    (hl : st.legacy = .got (some d))
    (hsave : save_index_to_s3 st' d' = some (k, x)) :
    load_processed_index (.s3B st) = .ok d ∧
    k = canonicalS3Key ∧ x = d' ∧ canonicalS3Key ≠ legacyS3Key := by
  obtain ⟨bucket, canonical, legacy, putOk⟩ := st
  simp only at hb hc hl
  subst hb hc hl
  refine ⟨rfl, ?_, ?_, by decide⟩
  · obtain ⟨bucket', canonical', legacy', putOk'⟩ := st'
    cases bucket' with
    | none => exact absurd hsave (by simp [save_index_to_s3])
    | some b'' =>
      simp only [save_index_to_s3, Option.some.injEq, Prod.mk.injEq] at hsave
      exact hsave.1.symm
  · obtain ⟨bucket', canonical', legacy', putOk'⟩ := st'
    cases bucket' with
    | none => exact absurd hsave (by simp [save_index_to_s3])
    | some b'' =>
      simp only [save_index_to_s3, Option.some.injEq, Prod.mk.injEq] at hsave
      exact hsave.2.symm

/-- A sample processed record used by concrete witnesses. -/
def sampleProcessedRecord : ItemRecord where
  status := "processed"
  processing_started := none
  processed_at := some "t"
  title := "T"
  channel_id := "c"
  channel_name := "n"
  note_path := some "p"

/-- A sample one-video index document used by concrete witnesses. -/
def sampleDoc : IndexDoc where
  videos := some [("v1", sampleProcessedRecord)]
  channels := some []

/-- Witness for c8_fallback_read_canonical_write at a concrete store holding
a one-video document only at the legacy key. -/
theorem c8_fallback_read_canonical_write_witness :
    load_processed_index (.s3B ⟨some "b", .noSuchKey, .got (some sampleDoc), true⟩) =
      .ok sampleDoc ∧
    canonicalS3Key = canonicalS3Key ∧ emptyIndex = emptyIndex ∧
    canonicalS3Key ≠ legacyS3Key :=
  c8_fallback_read_canonical_write
    ⟨some "b", .noSuchKey, .got (some sampleDoc), true⟩
    ⟨some "b", .noSuchKey, .noSuchKey, true⟩
    "b" sampleDoc emptyIndex emptyIndex canonicalS3Key rfl rfl rfl rfl

/-- C1: for every backing-store state on which load_processed_index raises
ProcessedIndexLoadError, commit (mark_video_processed) and checkpoint-feed
(update_channel_checked) pass no document to save_processed_index, and for
every S3 store on which the load likewise raises, claim
(mark_video_processing_s3) calls no put_object and returns false — the
persisted index document is left untouched by all three. -/
theorem c1_no_blind_overwrite (env : StoreEnv) (st : S3Store)
    (vid t cid cn np url lvid now : String)
    (h : load_processed_index env = .error ())
    (hs : load_processed_index (.s3B st) = .error ()) :
    mark_video_processed env vid t cid cn np now = none ∧
    update_channel_checked env cid cn url lvid now = none ∧
    mark_video_processing_s3 st vid t cid cn now = (false, none) := by
  refine ⟨?_, ?_, ?_⟩
  · simp [mark_video_processed, h, mark_video_processed_core]
  · simp [update_channel_checked, h, update_channel_checked_core]
  · obtain ⟨bucket, canonical, legacy, putOk⟩ := st
    cases bucket with
    | none => rfl
    | some b =>
      cases canonical with
      | clientError => rfl
      | otherError => rfl
      | got p =>
        cases p with
        | none => rfl
        | some d =>
          simp [load_processed_index, backendLoad, load_index_from_s3] at hs
      | noSuchKey =>
        cases legacy with
        | otherError => rfl
        | clientError =>
          simp [load_processed_index, backendLoad, load_index_from_s3] at hs
        | noSuchKey =>
          simp [load_processed_index, backendLoad, load_index_from_s3] at hs
        | got p =>
          cases p with
          | none => rfl
          | some d =>
            simp [load_processed_index, backendLoad, load_index_from_s3] at hs

/-- Witness for c1_no_blind_overwrite at a concrete S3 store whose canonical
fetch fails with a non-absence ClientError. -/
theorem c1_no_blind_overwrite_witness :
    mark_video_processed (.s3B ⟨some "b", .clientError, .noSuchKey, true⟩)
      "v" "T" "c" "n" "p" "now" = none ∧
    update_channel_checked (.s3B ⟨some "b", .clientError, .noSuchKey, true⟩)
      "c" "n" "u" "v" "now" = none ∧
    mark_video_processing_s3 ⟨some "b", .clientError, .noSuchKey, true⟩
      "v" "T" "c" "n" "now" = (false, none) :=
  c1_no_blind_overwrite (.s3B ⟨some "b", .clientError, .noSuchKey, true⟩)
    ⟨some "b", .clientError, .noSuchKey, true⟩
    "v" "T" "c" "n" "p" "u" "v" "now" rfl rfl

/-- C5: claim (mark_video_processing_s3) returns false whenever the loaded
index already contains the item id in `videos` (any status); it returns true
only when the id was absent from the loaded index and the put succeeded; and
when a second claim's load observes the document saved by a first claim for
the same id, the second claim returns false — so exactly one of the two
returns true. -/
theorem c5_claim_exclusivity (st st2 : S3Store) (d d1 : IndexDoc) (r : ItemRecord)
    (vid t c cn now t2 c2 cn2 now2 : String) :
    (loadForClaim st = .ok d → lookupA vid (d.videos.getD []) = some r →
       mark_video_processing_s3 st vid t c cn now = (false, none)) ∧
    ((mark_video_processing_s3 st vid t c cn now).fst = true →
       st.putOk = true ∧ ∃ d', loadForClaim st = .ok d' ∧
         lookupA vid (d'.videos.getD []) = none) ∧
    ((mark_video_processing_s3 st vid t c cn now).snd = some d1 →
       loadForClaim st2 = .ok d1 →
       (mark_video_processing_s3 st2 vid t2 c2 cn2 now2).fst = false) := by
  refine ⟨?_, ?_, ?_⟩
  · intro h1 h2
    cases hb : st.bucket with
    | none => simp [mark_video_processing_s3, hb]
    | some b => simp [mark_video_processing_s3, hb, h1, h2]
  · intro hfst
    cases hb : st.bucket with
    | none => simp [mark_video_processing_s3, hb] at hfst
    | some b =>
      cases hld : loadForClaim st with
      | error e => simp [mark_video_processing_s3, hb, hld] at hfst
      | ok d' =>
        cases hmem : lookupA vid (d'.videos.getD []) with
        | some r' => simp [mark_video_processing_s3, hb, hld, hmem] at hfst
        | none =>
          cases hv : d'.videos with
          | none => simp [mark_video_processing_s3, hb, hld, hmem, hv] at hfst
          | some vids =>
            have hmem0 := hmem
            rw [hv] at hmem
            simp only [Option.getD_some] at hmem
            simp only [mark_video_processing_s3, hb, hld, hv, Option.getD_some, hmem,
              Option.isSome_none, Bool.false_eq_true, if_false] at hfst
            exact ⟨hfst, d', rfl, hmem0⟩
  · intro hsnd hld2
    cases hb : st.bucket with
    | none => simp [mark_video_processing_s3, hb] at hsnd
    | some b =>
      cases hld : loadForClaim st with
      | error e => simp [mark_video_processing_s3, hb, hld] at hsnd
      | ok d' =>
        cases hmem : lookupA vid (d'.videos.getD []) with
        | some r' => simp [mark_video_processing_s3, hb, hld, hmem] at hsnd
        | none =>
          cases hv : d'.videos with
          | none => simp [mark_video_processing_s3, hb, hld, hmem, hv] at hsnd
          | some vids =>
            rw [hv] at hmem
            simp only [Option.getD_some] at hmem
            simp only [mark_video_processing_s3, hb, hld, hv, Option.getD_some, hmem,
              Option.isSome_none, Bool.false_eq_true, if_false,
              Option.some.injEq] at hsnd
            subst hsnd
            cases hb2 : st2.bucket with
            | none => simp [mark_video_processing_s3, hb2]
            | some b2 =>
              simp [mark_video_processing_s3, hb2, hld2, lookupA_insertA_self]

/-- The document saved by a first claim of "v1" against a fresh store, used
by the c5 witness. -/
def claimedDoc : IndexDoc where
  videos := some [("v1", claimRecord "T" "c" "n" "t1")]
  channels := some []

/-- Witness for c5_claim_exclusivity: a claim against a store already
holding "v1" returns false with no write; a claim against a fresh store
returns true with the put succeeding and "v1" absent from the loaded index;
a second claim whose load observes the first claim's saved document returns
false. -/
theorem c5_claim_exclusivity_witness :
    mark_video_processing_s3 ⟨some "b", .got (some sampleDoc), .noSuchKey, true⟩
      "v1" "T" "c" "n" "t1" = (false, none) ∧
    ((⟨some "b", .got (some emptyIndex), .noSuchKey, true⟩ : S3Store).putOk = true ∧
      ∃ d', loadForClaim ⟨some "b", .got (some emptyIndex), .noSuchKey, true⟩ = .ok d' ∧
        lookupA "v1" (d'.videos.getD []) = none) ∧
    (mark_video_processing_s3 ⟨some "b", .got (some claimedDoc), .noSuchKey, true⟩
      "v1" "T" "c" "n" "t2").fst = false :=
  ⟨(c5_claim_exclusivity ⟨some "b", .got (some sampleDoc), .noSuchKey, true⟩
      ⟨some "b", .got (some sampleDoc), .noSuchKey, true⟩ sampleDoc sampleDoc
      sampleProcessedRecord "v1" "T" "c" "n" "t1" "T" "c" "n" "t1").1 rfl rfl,
   (c5_claim_exclusivity ⟨some "b", .got (some emptyIndex), .noSuchKey, true⟩
      ⟨some "b", .got (some emptyIndex), .noSuchKey, true⟩ emptyIndex emptyIndex
      sampleProcessedRecord "v1" "T" "c" "n" "t1" "T" "c" "n" "t1").2.1 rfl,
   (c5_claim_exclusivity ⟨some "b", .got (some emptyIndex), .noSuchKey, true⟩
      ⟨some "b", .got (some claimedDoc), .noSuchKey, true⟩ emptyIndex claimedDoc
      sampleProcessedRecord "v1" "T" "c" "n" "t1" "T" "c" "n" "t2").2.2 rfl rfl⟩

/-- C6: commit (mark_video_processed) preserves the existing record's
`processing_started` across the transition to processed — the written record
carries the pre-existing entry's value (null when there was no prior claim) —
so a second commit with the same inputs leaves `processing_started` at its
value from the first commit and changes only `processed_at`. -/
theorem c6_commit_idempotent (d d1 : IndexDoc) (r1 : ItemRecord)
    (vid t cid cn np now1 now2 : String)
    (h1 : mark_video_processed_core (.ok d) vid t cid cn np now1 = some d1)
    (h2 : lookupA vid (d1.videos.getD []) = some r1) :
    ∃ d2 r2,
      mark_video_processed_core (.ok d1) vid t cid cn np now2 = some d2 ∧
      lookupA vid (d2.videos.getD []) = some r2 ∧
      r2.processing_started = r1.processing_started ∧
      r1.processing_started =
        (lookupA vid (d.videos.getD [])).bind ItemRecord.processing_started ∧
      r2 = { r1 with processed_at := some now2 } := by
  simp only [mark_video_processed_core, Option.some.injEq] at h1
  subst h1
  simp only [Option.getD_some, lookupA_insertA_self, Option.some.injEq] at h2
  subst h2
  refine ⟨_, _, rfl, lookupA_insertA_self _ _ _, ?_, ?_, ?_⟩
  · simp [commitRecord, lookupA_insertA_self]
  · simp [commitRecord]
  · simp [commitRecord, lookupA_insertA_self]

/-- A one-video document holding a claim for "v1" started at "t0". -/
def claimedV1T0Doc : IndexDoc where
  videos := some [("v1", claimRecord "T" "c" "n" "t0")]
  channels := some []

/-- The record produced by the first commit of "v1" over that claim. -/
def committedV1Rec : ItemRecord :=
  commitRecord (some (claimRecord "T" "c" "n" "t0")) "T" "c" "n" "p" "t1"

/-- The document produced by the first commit of "v1" over that claim. -/
def committedV1Doc : IndexDoc where
  videos := some [("v1", committedV1Rec)]
  channels := some []

/-- Witness for c6_commit_idempotent: committing "v1" a second time against
the document produced by a first commit over a claim started at "t0". -/
theorem c6_commit_idempotent_witness :
    ∃ d2 r2,
      mark_video_processed_core (.ok committedV1Doc) "v1" "T" "c" "n" "p" "t2" = some d2 ∧
      lookupA "v1" (d2.videos.getD []) = some r2 ∧
      r2.processing_started = committedV1Rec.processing_started ∧
      committedV1Rec.processing_started =
        (lookupA "v1" (claimedV1T0Doc.videos.getD [])).bind ItemRecord.processing_started ∧
      r2 = { committedV1Rec with processed_at := some "t2" } :=
  c6_commit_idempotent claimedV1T0Doc committedV1Doc committedV1Rec
    "v1" "T" "c" "n" "p" "t1" "t2" rfl rfl

/-- C7: when the loaded index holds `videos[v]` with status "processed",
is_processed(v) returns true and a claim of v returns false with no write;
and none of the three mutating operations moves a processed record out of the
processed state — a successful commit (of any id), a successful claim (of any
id), and a checkpoint-feed all leave every processed entry present with
status "processed" in the document they save. -/
theorem c7_terminal_state (env : StoreEnv) (st : S3Store) (d w wd w' : IndexDoc)
    (r : ItemRecord) (v vid t cid cn np now fid fn furl flv fnow : String)
    (hr : lookupA v (d.videos.getD []) = some r)
    (hst : r.status = "processed") :
    (load_processed_index env = .ok d → is_video_processed env v = true) ∧
    (loadForClaim st = .ok d →
       mark_video_processing_s3 st v t cid cn now = (false, none)) ∧
    (mark_video_processed_core (.ok d) vid t cid cn np now = some w →
       ∃ r', lookupA v (w.videos.getD []) = some r' ∧ r'.status = "processed") ∧
    (loadForClaim st = .ok d →
       (mark_video_processing_s3 st vid t cid cn now).snd = some wd →
       ∃ r', lookupA v (wd.videos.getD []) = some r' ∧ r'.status = "processed") ∧
    (update_channel_checked_core (.ok d) fid fn furl flv fnow = some w' →
       w'.videos = d.videos) := by
  refine ⟨?_, ?_, ?_, ?_, ?_⟩
  · intro h
    simp [is_video_processed, h, hr]
  · intro h
    cases hb : st.bucket with
    | none => simp [mark_video_processing_s3, hb]
    | some b => simp [mark_video_processing_s3, hb, h, hr]
  · intro h
    simp only [mark_video_processed_core, Option.some.injEq] at h
    subst h
    by_cases hv : v = vid
    · subst hv
      refine ⟨commitRecord (lookupA v (d.videos.getD [])) t cid cn np now, ?_, rfl⟩
      simp [lookupA_insertA_self]
    · refine ⟨r, ?_, hst⟩
      simp [lookupA_insertA_ne _ _ _ _ hv, hr]
  · intro hld hsnd
    cases hb : st.bucket with
    | none => simp [mark_video_processing_s3, hb] at hsnd
    | some b =>
      cases hmem : lookupA vid (d.videos.getD []) with
      | some r' => simp [mark_video_processing_s3, hb, hld, hmem] at hsnd
      | none =>
        cases hvv : d.videos with
        | none => simp [mark_video_processing_s3, hb, hld, hmem, hvv] at hsnd
        | some vids =>
          rw [hvv] at hmem
          simp only [Option.getD_some] at hmem
          simp only [mark_video_processing_s3, hb, hld, hvv, Option.getD_some, hmem,
            Option.isSome_none, Bool.false_eq_true, if_false,
            Option.some.injEq] at hsnd
          subst hsnd
          have hne : v ≠ vid := by
            intro he
            rw [he, hvv] at hr
            simp only [Option.getD_some] at hr
            rw [hmem] at hr
            exact Option.noConfusion hr
          refine ⟨r, ?_, hst⟩
          rw [hvv] at hr
          simp only [Option.getD_some] at hr
          simpa [lookupA_insertA_ne _ _ _ _ hne] using hr
  · intro h
    simp only [update_channel_checked_core, Option.some.injEq] at h
    subst h
    rfl

/-- The feed record written by the concrete checkpoint used in witnesses. -/
def sampleFeedRecord : FeedRecord where
  name := "n2"
  url := "u2"
  last_checked := "t3"
  last_video_id := "v9"

/-- sampleDoc after committing a second video "v2" with no prior claim. -/
def docAfterCommitV2 : IndexDoc where
  videos := some [("v1", sampleProcessedRecord),
    ("v2", commitRecord none "T2" "c2" "n2" "p2" "t2")]
  channels := some []

/-- sampleDoc after claiming a second video "v2". -/
def docAfterClaimV2 : IndexDoc where
  videos := some [("v1", sampleProcessedRecord), ("v2", claimRecord "T2" "c2" "n2" "t2")]
  channels := some []

/-- sampleDoc after checkpointing feed "c2". -/
def docAfterCheckpointC2 : IndexDoc where
  videos := some [("v1", sampleProcessedRecord)]
  channels := some [("c2", sampleFeedRecord)]

/-- Witness for c7_terminal_state on a store holding sampleDoc, whose "v1"
entry is processed: the check returns true, a claim of "v1" returns false
with no write, and commit of "v2", claim of "v2" and checkpoint of "c2"
each preserve the processed "v1" entry. -/
theorem c7_terminal_state_witness :
    is_video_processed (.s3B ⟨some "b", .got (some sampleDoc), .noSuchKey, true⟩)
      "v1" = true ∧
    mark_video_processing_s3 ⟨some "b", .got (some sampleDoc), .noSuchKey, true⟩
      "v1" "T2" "c2" "n2" "t2" = (false, none) ∧
    (∃ r', lookupA "v1" (docAfterCommitV2.videos.getD []) = some r' ∧
       r'.status = "processed") ∧
    (∃ r', lookupA "v1" (docAfterClaimV2.videos.getD []) = some r' ∧
       r'.status = "processed") ∧
    docAfterCheckpointC2.videos = sampleDoc.videos := by
  have h := c7_terminal_state
    (.s3B ⟨some "b", .got (some sampleDoc), .noSuchKey, true⟩)
    ⟨some "b", .got (some sampleDoc), .noSuchKey, true⟩
    sampleDoc docAfterCommitV2 docAfterClaimV2 docAfterCheckpointC2
    sampleProcessedRecord "v1" "v2" "T2" "c2" "n2" "p2" "t2" "c2" "n2" "u2" "v9" "t3"
    rfl rfl
  exact ⟨h.1 rfl, h.2.1 rfl, h.2.2.1 rfl, h.2.2.2.1 rfl rfl, h.2.2.2.2 rfl⟩

/-- C9: a successful commit of vid rewrites only `videos[vid]` — the channels
mapping is untouched, the "videos" key exists afterwards (created when the
loaded document lacked it), `videos[vid]` is present, and every other videos
entry is unchanged; dually, a successful checkpoint of fid rewrites only
`channels[fid]`, leaving the entire videos mapping and every other channels
entry unchanged. -/
theorem c9_frame_effects (d w w' : IndexDoc)
    (vid t cid cn np now fid fn furl flv fnow v g : String)
    (hc : mark_video_processed_core (.ok d) vid t cid cn np now = some w)
    (hu : update_channel_checked_core (.ok d) fid fn furl flv fnow = some w')
    (hv : v ≠ vid) (hg : g ≠ fid) :
    w.channels = d.channels ∧
    w.videos.isSome = true ∧
    (lookupA vid (w.videos.getD [])).isSome = true ∧
    lookupA v (w.videos.getD []) = lookupA v (d.videos.getD []) ∧
    w'.videos = d.videos ∧
    w'.channels.isSome = true ∧
    (lookupA fid (w'.channels.getD [])).isSome = true ∧
    lookupA g (w'.channels.getD []) = lookupA g (d.channels.getD []) := by
  simp only [mark_video_processed_core, Option.some.injEq] at hc
  simp only [update_channel_checked_core, Option.some.injEq] at hu
  subst hc
  subst hu
  refine ⟨rfl, rfl, ?_, ?_, rfl, rfl, ?_, ?_⟩
  · simp [lookupA_insertA_self]
  · simp [lookupA_insertA_ne _ _ _ _ hv]
  · simp [lookupA_insertA_self]
  · simp [lookupA_insertA_ne _ _ _ _ hg]

/-- Witness for c9_frame_effects: commit of "v2" and checkpoint of "c2"
against sampleDoc, framed at the other entries "v1" and "x". -/
theorem c9_frame_effects_witness :
    docAfterCommitV2.channels = sampleDoc.channels ∧
    docAfterCommitV2.videos.isSome = true ∧
    (lookupA "v2" (docAfterCommitV2.videos.getD [])).isSome = true ∧
    lookupA "v1" (docAfterCommitV2.videos.getD []) =
      lookupA "v1" (sampleDoc.videos.getD []) ∧
    docAfterCheckpointC2.videos = sampleDoc.videos ∧
    docAfterCheckpointC2.channels.isSome = true ∧
    (lookupA "c2" (docAfterCheckpointC2.channels.getD [])).isSome = true ∧
    lookupA "x" (docAfterCheckpointC2.channels.getD []) =
      lookupA "x" (sampleDoc.channels.getD []) :=
  c9_frame_effects sampleDoc docAfterCommitV2 docAfterCheckpointC2
    "v2" "T2" "c2" "n2" "p2" "t2" "c2" "n2" "u2" "v9" "t3" "v1" "x"
    rfl rfl (by decide) (by decide)
